import Mathlib

/-!
Verification of the social-media REST facade (`src/main.py`).

The development shallowly embeds the Python source: Python values that flow
through the normalizers are modelled by `PyVal`; operations that can raise a
Python exception return `Except String α`; pydantic response models become
Lean structures, and pydantic field validation becomes explicit coercion
functions run after the constructor arguments are evaluated (mirroring the
evaluation order of a Python constructor call).  Route handlers are modelled
as functions of the results of the external library calls they make, in the
order the source makes them.
-/

set_option maxHeartbeats 1000000

deriving instance DecidableEq for Except

namespace SocialMediaApi

/-- A `datetime.datetime` value, represented by its epoch second count
(the embedding works in UTC). -/
structure PyDatetime where
  epoch : Int
deriving DecidableEq

/-- A Python value as it appears in the upstream payloads: `None`, booleans,
integers, strings, lists, string-keyed dictionaries, and the `datetime`
objects the wrapped libraries hand back. -/
inductive PyVal where
  | null : PyVal
  | bool (b : Bool) : PyVal
  | int (n : Int) : PyVal
  | str (s : String) : PyVal
  | list (xs : List PyVal) : PyVal
  | dict (xs : List (String × PyVal)) : PyVal
  | dt (d : PyDatetime) : PyVal

/-- Python truthiness: `None`, `False`, `0`, `""`, `[]` and `{}` are falsy. -/
def PyVal.isTruthy : PyVal → Bool
  | .null => false
  | .bool b => b
  | .int n => n != 0
  | .str s => s != ""
  | .list xs => !xs.isEmpty
  | .dict xs => !xs.isEmpty
  | .dt _ => true

/-- Is the value a dictionary (`isinstance(x, dict)`)? -/
def PyVal.isDict : PyVal → Bool
  | .dict _ => true
  | _ => false

/-- Python's non-raising `a or b` on plain values. -/
def pyOr (a b : PyVal) : PyVal :=
  if a.isTruthy then a else b

/-- First binding of `key` in an association list (Python dicts have unique
keys, so the first match is the only one). -/
def lookupKey : List (String × PyVal) → String → Option PyVal
  | [], _ => Option.none
  | (k, v) :: rest, key => if k = key then some v else lookupKey rest key

/-- `d.get(key, default)`: raises `AttributeError` when the receiver is not a
dictionary, otherwise returns the stored value or the default. -/
def pyGet (v : PyVal) (key : String) (dflt : PyVal) : Except String PyVal :=
  match v with
  | .dict xs => .ok ((lookupKey xs key).getD dflt)
  | _ => .error "AttributeError: object has no attribute get"

/-- `key in d`: key membership for dictionaries, substring test for strings,
element membership for lists, `TypeError` otherwise. -/
def pyContains (v : PyVal) (key : String) : Except String Bool :=
  match v with
  | .dict xs => .ok (lookupKey xs key).isSome
  | .str s => .ok (decide (List.IsInfix key.toList s.toList))
  | _ => .error "TypeError: argument is not iterable"

/-- `d[key]` on a dictionary: `KeyError` when absent, `TypeError` when the
receiver is not a dictionary. -/
def pySubscript (v : PyVal) (key : String) : Except String PyVal :=
  match v with
  | .dict xs =>
    match lookupKey xs key with
    | some x => .ok x
    | Option.none => .error "KeyError"
  | _ => .error "TypeError: object is not subscriptable"

/-- `xs[0]`: first element of a list (the callers guard with a truthiness
check, but an empty list still raises `IndexError`), first character of a
string, `TypeError` for everything else. -/
def pyIndex0 (v : PyVal) : Except String PyVal :=
  match v with
  | .list (x :: _) => .ok x
  | .list [] => .error "IndexError"
  | .str s =>
    match s.toList with
    | c :: _ => .ok (.str (String.mk [c]))
    | [] => .error "IndexError"
  | _ => .error "TypeError: object is not subscriptable"

/-- Iterating over a Python value, as in a `for` loop: lists yield their
elements, strings their characters, dictionaries their keys. -/
def pyIter (v : PyVal) : Except String (List PyVal) :=
  match v with
  | .list xs => .ok xs
  | .str s => .ok (s.toList.map fun c => .str (String.mk [c]))
  | .dict xs => .ok (xs.map fun kv => .str kv.1)
  | _ => .error "TypeError: object is not iterable"

mutual

/-- `str(x)`.  For strings it is the identity; numbers and `None` render the
Python way; containers render with a simplified repr (no normalizer claim
observes the exact repr text of a container). -/
def pyStr : PyVal → String
  | .null => "None"
  | .bool b => if b then "True" else "False"
  | .int n => toString n
  | .str s => s
  | .list xs => "[" ++ pyStrList xs ++ "]"
  | .dict xs => "\x7b" ++ pyStrDict xs ++ "\x7d"
  | .dt d => "datetime(" ++ toString d.epoch ++ ")"

def pyStrList : List PyVal → String
  | [] => ""
  | [x] => pyStr x
  | x :: rest => pyStr x ++ ", " ++ pyStrList rest

def pyStrDict : List (String × PyVal) → String
  | [] => ""
  | [(k, v)] => k ++ ": " ++ pyStr v
  | (k, v) :: rest => k ++ ": " ++ pyStr v ++ ", " ++ pyStrDict rest

end

/-- Does the string parse as a Python `int(...)` literal: optional sign
followed by at least one digit (surrounding whitespace stripped)? -/
def parsePyIntString (s : String) : Option Int :=
  let t := ((s.toList.dropWhile Char.isWhitespace).reverse.dropWhile Char.isWhitespace).reverse
  let core : List Char × Bool :=
    match t with
    | '-' :: rest => (rest, true)
    | '+' :: rest => (rest, false)
    | rest => (rest, false)
  if core.1 ≠ [] ∧ core.1.all Char.isDigit then
    let mag : Nat := core.1.foldl (fun acc c => acc * 10 + c.toNat - '0'.toNat) 0
    some (if core.2 then -(mag : Int) else (mag : Int))
  else
    Option.none

/-- `int(x)`: identity on integers, `True`/`False` become 1/0, numeric
strings are parsed (`ValueError` otherwise), everything else raises
`TypeError`. -/
def pyInt (v : PyVal) : Except String Int :=
  match v with
  | .int n => .ok n
  | .bool b => .ok (if b then 1 else 0)
  | .str s =>
    match parsePyIntString s with
    | some n => .ok n
    | Option.none => .error "ValueError: invalid literal for int"
  | _ => .error "TypeError: int argument must be a string or a number"

/-- Attribute access `obj.name` for the upstream library objects, which the
embedding represents as dictionaries of their attributes (Python's
`obj.__dict__`); missing attributes raise `AttributeError`. -/
def pyAttr (v : PyVal) (name : String) : Except String PyVal :=
  match v with
  | .dict xs =>
    match lookupKey xs name with
    | some x => .ok x
    | Option.none => .error ("AttributeError: no attribute " ++ name)
  | _ => .error ("AttributeError: no attribute " ++ name)

/-- `getattr(obj, name, default)`. -/
def pyGetAttrD (v : PyVal) (name : String) (dflt : PyVal) : Except String PyVal :=
  match v with
  | .dict xs => .ok ((lookupKey xs name).getD dflt)
  | _ => .ok dflt

/-- `hasattr(obj, '__dict__')`: true exactly for the values the embedding
treats as objects. -/
def pyHasDunderDict (v : PyVal) : Bool :=
  match v with
  | .dict _ => true
  | _ => false

/-- Python's short-circuiting `a or b` over possibly raising operands. -/
def pyOrE (a b : Except String PyVal) : Except String PyVal := do
  let x ← a
  if x.isTruthy then pure x else b

/-- Three-way `a or b or c`. -/
def pyOrE3 (a b c : Except String PyVal) : Except String PyVal :=
  pyOrE a (pyOrE b c)

/-- Does an `Except` computation model a raised Python exception? -/
def exceptRaises : Except String α → Bool
  | .error _ => true
  | .ok _ => false

/-- Smallest epoch representable by `datetime` (0001-01-01T00:00:00). -/
def datetimeMinEpoch : Int := -62135596800

/-- Largest epoch representable by `datetime` (9999-12-31T23:59:59). -/
def datetimeMaxEpoch : Int := 253402300799

/-- Does a timestamp fit the platform's 64-bit `time_t`?  CPython's
`datetime.fromtimestamp` converts its argument to `time_t` before any
calendar computation and raises `OverflowError` when it does not fit. -/
def fitsTimeT (n : Int) : Bool :=
  -9223372036854775808 ≤ n && n ≤ 9223372036854775807

/-- `datetime.fromtimestamp(n)`: a timestamp that does not fit the
platform `time_t` raises `OverflowError`; one that fits but falls outside
the representable `datetime` range raises `OSError` (or `ValueError` for
out-of-range years — both classes appear together in every `except` clause
of the source, so the embedding does not distinguish them). -/
def datetime_fromtimestamp (n : Int) : Except String PyDatetime :=
  if fitsTimeT n then
    if datetimeMinEpoch ≤ n ∧ n ≤ datetimeMaxEpoch then .ok ⟨n⟩
    else .error "OSError: timestamp out of range"
  else .error "OverflowError: timestamp out of range for platform time_t"

/-- Does an exception message name one of the classes of the clause
`except (ValueError, TypeError, OSError)` (lines 286 and 345)?
`OverflowError` is not among them. -/
def caught_by_value_type_os (e : String) : Bool :=
  List.isPrefixOf "ValueError".toList e.toList ||
  List.isPrefixOf "TypeError".toList e.toList ||
  List.isPrefixOf "OSError".toList e.toList

/-- Civil date from a day count relative to 1970-01-01 (proleptic Gregorian
calendar): returns `(year, month, day)`. -/
def civilFromDays (z0 : Int) : Int × Int × Int :=
  let z := z0 + 719468
  let era : Int := z.fdiv 146097
  let doe : Int := z - era * 146097
  let yoe : Int := (doe - doe.ediv 1460 + doe.ediv 36524 - doe.ediv 146096).ediv 365
  let y : Int := yoe + era * 400
  let doy : Int := doe - (365 * yoe + yoe.ediv 4 - yoe.ediv 100)
  let mp : Int := (5 * doy + 2).ediv 153
  let d : Int := doy - (153 * mp + 2).ediv 5 + 1
  let m : Int := mp + (if mp < 10 then 3 else -9)
  (y + (if m ≤ 2 then 1 else 0), m, d)

/-- Zero-pad a (nonnegative) number to two digits. -/
def pad2 (n : Int) : String :=
  if n < 10 then "0" ++ toString n else toString n

/-- Zero-pad a (nonnegative) number to four digits, as `datetime` renders
years. -/
def pad4 (n : Int) : String :=
  if n < 10 then "000" ++ toString n
  else if n < 100 then "00" ++ toString n
  else if n < 1000 then "0" ++ toString n
  else toString n

/-- `datetime.isoformat()` for whole-second datetimes:
`YYYY-MM-DDTHH:MM:SS`. -/
def PyDatetime.isoformat (t : PyDatetime) : String :=
  let days : Int := t.epoch.fdiv 86400
  let secs : Int := t.epoch - days * 86400
  let ymd := civilFromDays days
  let hh : Int := secs.ediv 3600
  let mm : Int := (secs.ediv 60) % 60
  let ss : Int := secs % 60
  pad4 ymd.1 ++ "-" ++ pad2 ymd.2.1 ++ "-" ++ pad2 ymd.2.2 ++ "T" ++
    pad2 hh ++ ":" ++ pad2 mm ++ ":" ++ pad2 ss

/-- An `HTTPException` as the web framework sees it: status code plus
detail message. -/
structure HTTPError where
  status : Nat
  detail : String
deriving DecidableEq

/-- Pydantic validation of an `int` field (lax mode): accepts integers,
booleans and integer-shaped strings; everything else is a
`ValidationError`. -/
def coerceInt (v : PyVal) : Except String Int :=
  match v with
  | .int n => .ok n
  | .bool b => .ok (if b then 1 else 0)
  | .str s =>
    match parsePyIntString s with
    | some n => .ok n
    | Option.none => .error "ValidationError: int parsing failed"
  | _ => .error "ValidationError: expected int"

/-- Pydantic validation of a `str` field (lax mode does not stringify
non-string values). -/
def coerceStr (v : PyVal) : Except String String :=
  match v with
  | .str s => .ok s
  | _ => .error "ValidationError: expected str"

/-- Pydantic validation of an `Optional[str]` field. -/
def coerceOptStr (v : PyVal) : Except String (Option String) :=
  match v with
  | .null => .ok Option.none
  | .str s => .ok (some s)
  | _ => .error "ValidationError: expected str or None"

/-- Pydantic validation of an `Optional[int]` field. -/
def coerceOptInt (v : PyVal) : Except String (Option Int) :=
  match v with
  | .null => .ok Option.none
  | _ => (coerceInt v).map some

/-- Pydantic validation of a `bool` field (lax mode): booleans, 0/1
integers and the usual string spellings. -/
def coerceBool (v : PyVal) : Except String Bool :=
  match v with
  | .bool b => .ok b
  | .int 0 => .ok false
  | .int 1 => .ok true
  | .str s =>
    if s ∈ ["true", "True", "1", "yes", "on"] then .ok true
    else if s ∈ ["false", "False", "0", "no", "off"] then .ok false
    else .error "ValidationError: expected bool"
  | _ => .error "ValidationError: expected bool"

/-- Pydantic validation of an `Optional[datetime]` field for the values the
embedding can represent: a datetime object or `None` (the source only ever
passes those). -/
def coerceOptDatetime (v : PyVal) : Except String (Option PyDatetime) :=
  match v with
  | .null => .ok Option.none
  | .dt d => .ok (some d)
  | _ => .error "ValidationError: expected datetime or None"

/-- Inject an optional datetime back into the value world. -/
def optDtToPy : Option PyDatetime → PyVal
  | some t => .dt t
  | Option.none => .null

/-! ## Pydantic response models (TikTok)

Each pydantic `BaseModel` of the source becomes a structure together with a
`mk…` function that validates the constructor arguments in order, mirroring
how Python evaluates and validates a pydantic constructor call. -/

/-- `TikTokVideoStats`. -/
structure TikTokVideoStats where
  views : Int
  likes : Int
  comments : Int
  shares : Int
deriving DecidableEq

/-- `TikTokVideoStats(playCount=…, diggCount=…, commentCount=…, shareCount=…)`. -/
def mkTikTokVideoStats (playCount diggCount commentCount shareCount : PyVal) :
    Except String TikTokVideoStats := do
  let views ← coerceInt playCount
  let likes ← coerceInt diggCount
  let comments ← coerceInt commentCount
  let shares ← coerceInt shareCount
  pure ⟨views, likes, comments, shares⟩

/-- `TikTokAuthorInfo`. -/
structure TikTokAuthorInfo where
  id : String
  username : String
  nickname : String
  avatar : Option String
deriving DecidableEq

/-- `TikTokAuthorInfo(id=…, uniqueId=…, nickname=…, avatarThumb=…)`. -/
def mkTikTokAuthorInfo (id uniqueId nickname avatarThumb : PyVal) :
    Except String TikTokAuthorInfo := do
  let idv ← coerceStr id
  let username ← coerceStr uniqueId
  let nick ← coerceStr nickname
  let avatar ← coerceOptStr avatarThumb
  pure ⟨idv, username, nick, avatar⟩

/-- `TikTokVideoResponse`. -/
structure TikTokVideoResponse where
  id : String
  description : String
  create_time : PyDatetime
  create_time_iso : String
  stats : TikTokVideoStats
  author : TikTokAuthorInfo
deriving DecidableEq

/-- `TikTokVideoResponse(id=…, description=…, …)`: the datetime and the two
already-validated nested models pass through, the raw fields are validated. -/
def mkTikTokVideoResponse (id description : PyVal) (create_time : PyDatetime)
    (create_time_iso : String) (stats : TikTokVideoStats) (author : TikTokAuthorInfo) :
    Except String TikTokVideoResponse := do
  let idv ← coerceStr id
  let desc ← coerceStr description
  pure ⟨idv, desc, create_time, create_time_iso, stats, author⟩

/-- `TikTokCommentAuthor`. -/
structure TikTokCommentAuthor where
  id : String
  username : String
  nickname : String
  avatar : Option String
deriving DecidableEq

/-- `TikTokCommentAuthor(id=…, username=…, nickname=…, avatar=…)`. -/
def mkTikTokCommentAuthor (id username nickname avatar : PyVal) :
    Except String TikTokCommentAuthor := do
  let idv ← coerceStr id
  let user ← coerceStr username
  let nick ← coerceStr nickname
  let av ← coerceOptStr avatar
  pure ⟨idv, user, nick, av⟩

/-- `TikTokComment`. -/
structure TikTokComment where
  id : String
  text : String
  create_time : Option PyDatetime
  create_time_iso : String
  likes : Int
  reply_count : Int
  author : TikTokCommentAuthor
deriving DecidableEq

/-- `TikTokComment(id=…, text=…, create_time=…, create_time_iso=…, likes=…,
reply_count=…, author=…)`. -/
def mkTikTokComment (id text : PyVal) (create_time : Option PyDatetime)
    (create_time_iso : String) (likes reply_count : PyVal)
    (author : TikTokCommentAuthor) : Except String TikTokComment := do
  let idv ← coerceStr id
  let textv ← coerceStr text
  let likesv ← coerceInt likes
  let replies ← coerceInt reply_count
  pure ⟨idv, textv, create_time, create_time_iso, likesv, replies, author⟩

/-- `TikTokCommentsResponse`. -/
structure TikTokCommentsResponse where
  video_id : String
  count : Nat
  comments : List TikTokComment
deriving DecidableEq

/-! ## TikTok normalizers -/

/-- The `createTime` conversion of `parse_tiktok_video_data` (lines 282-287):
`int(raw) if raw else 0`, then `datetime.fromtimestamp`, with only
`ValueError`/`TypeError`/`OSError` degraded to `datetime.now()` (the `now`
argument); an `OverflowError` from `fromtimestamp` escapes the clause. -/
def tiktok_video_create_time (now : PyDatetime) (create_time_raw : PyVal) :
    Except String PyDatetime :=
  match (do
    let u ← (if create_time_raw.isTruthy then pyInt create_time_raw else Except.ok 0)
    datetime_fromtimestamp u : Except String PyDatetime) with
  | .ok t => .ok t
  | .error e => if caught_by_value_type_os e then .ok now else .error e

/-- `parse_tiktok_video_data` (lines 277-306).  `now` stands for
`datetime.now()`. -/
def parse_tiktok_video_data (now : PyDatetime) (video_dict : PyVal) :
    Except String TikTokVideoResponse := do
  let stats_data ← pyGet video_dict "stats" (.dict [])
  let author_data ← pyGet video_dict "author" (.dict [])
  let create_time_raw ← pyGet video_dict "createTime" (.int 0)
  let create_time ← tiktok_video_create_time now create_time_raw
  let idv ← pyGet video_dict "id" (.str "")
  let descv ← pyGet video_dict "desc" (.str "")
  let playCount ← pyGet stats_data "playCount" (.int 0)
  let diggCount ← pyGet stats_data "diggCount" (.int 0)
  let commentCount ← pyGet stats_data "commentCount" (.int 0)
  let shareCount ← pyGet stats_data "shareCount" (.int 0)
  let stats ← mkTikTokVideoStats playCount diggCount commentCount shareCount
  let aid ← pyGet author_data "id" (.str "")
  let auid ← pyGet author_data "uniqueId" (.str "")
  let anick ← pyGet author_data "nickname" (.str "")
  let aav ← pyGet author_data "avatarThumb" .null
  let author ← mkTikTokAuthorInfo aid auid anick aav
  mkTikTokVideoResponse idv descv create_time create_time.isoformat stats author

/-- The `createTime` conversion of `parse_tiktok_comment` (lines 341-346):
like the video conversion, but `0`/absent and the caught
`ValueError`/`TypeError`/`OSError` failures give `None`; an
`OverflowError` from `fromtimestamp` escapes the clause. -/
def tiktok_comment_create_time (create_time_raw : PyVal) :
    Except String (Option PyDatetime) :=
  match (do
    let u ← (if create_time_raw.isTruthy then pyInt create_time_raw else Except.ok 0)
    if u ≠ 0 then (datetime_fromtimestamp u).map some else Except.ok Option.none :
      Except String (Option PyDatetime)) with
  | .ok t => .ok t
  | .error e => if caught_by_value_type_os e then .ok Option.none else .error e

/-- The avatar extraction of `parse_tiktok_comment` (lines 348-352). -/
def tiktok_comment_avatar (author_data : PyVal) : Except String PyVal := do
  let avatar_raw ← pyOrE3 (pyGet author_data "avatarThumb" .null)
    (pyGet author_data "avatar_thumb" .null) (pyGet author_data "avatar" .null)
  match avatar_raw with
  | .dict _ =>
    pyOrE3 (pyGet avatar_raw "uri" .null) (pyGet avatar_raw "url" .null)
      (pure (.str (pyStr avatar_raw)))
  | .str s => pure (.str s)
  | _ => pure .null

/-- `parse_tiktok_comment` (lines 337-367). -/
def parse_tiktok_comment (comment_dict : PyVal) : Except String TikTokComment := do
  let author_data ← pyOrE (pyGet comment_dict "user" (.dict []))
    (pyGet comment_dict "author" (.dict []))
  let create_time_raw ← pyOrE (pyGet comment_dict "createTime" (.int 0))
    (pyGet comment_dict "create_time" (.int 0))
  let create_time ← tiktok_comment_create_time create_time_raw
  let avatar ← tiktok_comment_avatar author_data
  let cid ← pyOrE (pyGet comment_dict "cid" (.str "")) (pyGet comment_dict "id" (.str ""))
  let text ← pyOrE (pyGet comment_dict "text" (.str "")) (pyGet comment_dict "comment" (.str ""))
  let likes ← pyOrE3 (pyGet comment_dict "diggCount" (.int 0))
    (pyGet comment_dict "digg_count" (.int 0)) (pyGet comment_dict "likes" (.int 0))
  let reply_count ← pyOrE (pyGet comment_dict "replyCommentTotal" (.int 0))
    (pyGet comment_dict "reply_count" (.int 0))
  let aid ← pyOrE (pyGet author_data "id" (.str "")) (pyGet author_data "uid" (.str ""))
  let auser ← pyOrE (pyGet author_data "uniqueId" (.str "")) (pyGet author_data "unique_id" (.str ""))
  let anick ← pyGet author_data "nickname" (.str "")
  let author ← mkTikTokCommentAuthor (.str (pyStr aid)) auser anick avatar
  mkTikTokComment (.str (pyStr cid)) text create_time
    (match create_time with
     | some t => t.isoformat
     | Option.none => "")
    likes reply_count author

/-! ## Pydantic response models (Instagram) -/

/-- `InstagramMediaStats`. -/
structure InstagramMediaStats where
  likes : Int
  comments : Int
  views : Option Int
deriving DecidableEq

/-- `InstagramMediaStats(likes=…, comments=…, views=…)`. -/
def mkInstagramMediaStats (likes comments views : PyVal) :
    Except String InstagramMediaStats := do
  let likesv ← coerceInt likes
  let commentsv ← coerceInt comments
  let viewsv ← coerceOptInt views
  pure ⟨likesv, commentsv, viewsv⟩

/-- `InstagramMediaResponse`. -/
structure InstagramMediaResponse where
  id : String
  pk : String
  code : String
  media_type : String
  caption : String
  create_time : Option PyDatetime
  create_time_iso : String
  thumbnail_url : Option String
  video_url : Option String
  stats : InstagramMediaStats
  author_username : String
deriving DecidableEq

/-- `InstagramMediaResponse(id=…, pk=…, code=…, media_type=…, caption=…,
create_time=…, create_time_iso=…, thumbnail_url=…, video_url=…, stats=…,
author_username=…)`. -/
def mkInstagramMediaResponse (id pk code : PyVal) (media_type : String)
    (caption create_time : PyVal) (create_time_iso : String)
    (thumbnail_url video_url : PyVal) (stats : InstagramMediaStats)
    (author_username : PyVal) : Except String InstagramMediaResponse := do
  let idv ← coerceStr id
  let pkv ← coerceStr pk
  let codev ← coerceStr code
  let captionv ← coerceStr caption
  let ct ← coerceOptDatetime create_time
  let thumb ← coerceOptStr thumbnail_url
  let video ← coerceOptStr video_url
  let author ← coerceStr author_username
  pure ⟨idv, pkv, codev, media_type, captionv, ct, create_time_iso, thumb, video, stats, author⟩

/-- `InstagramCommentAuthor`. -/
structure InstagramCommentAuthor where
  id : String
  username : String
  full_name : String
  avatar : Option String
deriving DecidableEq

/-- `InstagramCommentAuthor(id=…, username=…, full_name=…, avatar=…)`. -/
def mkInstagramCommentAuthor (id username full_name avatar : PyVal) :
    Except String InstagramCommentAuthor := do
  let idv ← coerceStr id
  let user ← coerceStr username
  let full ← coerceStr full_name
  let av ← coerceOptStr avatar
  pure ⟨idv, user, full, av⟩

/-- `InstagramComment`. -/
structure InstagramComment where
  id : String
  text : String
  create_time : Option PyDatetime
  create_time_iso : String
  likes : Int
  author : InstagramCommentAuthor
deriving DecidableEq

/-- `InstagramComment(id=…, text=…, create_time=…, create_time_iso=…,
likes=…, author=…)`. -/
def mkInstagramComment (id text create_time : PyVal) (create_time_iso : String)
    (likes : PyVal) (author : InstagramCommentAuthor) :
    Except String InstagramComment := do
  let idv ← coerceStr id
  let textv ← coerceStr text
  let ct ← coerceOptDatetime create_time
  let likesv ← coerceInt likes
  pure ⟨idv, textv, ct, create_time_iso, likesv, author⟩

/-- `InstagramCommentsResponse`. -/
structure InstagramCommentsResponse where
  media_id : String
  count : Nat
  comments : List InstagramComment
  next_cursor : Option String
  has_more : Bool
deriving DecidableEq

/-- `InstagramFollowerResponse`. -/
structure InstagramFollowerResponse where
  id : String
  username : String
  full_name : String
  avatar : Option String
  is_private : Bool
  is_verified : Bool
deriving DecidableEq

/-- `InstagramFollowerResponse(id=…, username=…, full_name=…, avatar=…,
is_private=…, is_verified=…)`. -/
def mkInstagramFollowerResponse (id username full_name avatar is_private is_verified : PyVal) :
    Except String InstagramFollowerResponse := do
  let idv ← coerceStr id
  let user ← coerceStr username
  let full ← coerceStr full_name
  let av ← coerceOptStr avatar
  let priv ← coerceBool is_private
  let ver ← coerceBool is_verified
  pure ⟨idv, user, full, av, priv, ver⟩

/-! ## Instagram normalizers -/

/-- `get_media_type_str` (lines 585-597).  Python's `==` makes `True` equal
to the dictionary key `1`, which the match reproduces; an unhashable
`media_type` (a list or a dictionary) makes
`media_types.get(media_type, "unknown")` raise `TypeError`. -/
def get_media_type_str (media_type product_type : PyVal) : Except String String :=
  match product_type with
  | .str "clips" => .ok "reel"
  | .str "igtv" => .ok "igtv"
  | _ =>
    match media_type with
    | .int 1 => .ok "photo"
    | .int 2 => .ok "video"
    | .int 8 => .ok "album"
    | .bool true => .ok "photo"
    | .list _ => .error "TypeError: unhashable type"
    | .dict _ => .error "TypeError: unhashable type"
    | _ => .ok "unknown"

/-- `parse_instagram_media` (lines 619-648), over library objects
represented as attribute dictionaries. -/
def parse_instagram_media (media : PyVal) : Except String InstagramMediaResponse := do
  let taken_at ← pyAttr media "taken_at"
  let view_count ← pyOrE (pyGetAttrD media "play_count" .null)
    (pyOrE (pyGetAttrD media "ig_play_count" .null)
      (pyOrE (pyGetAttrD media "video_play_count" .null)
        (pyOrE (pyGetAttrD media "view_count" .null)
          (pyGetAttrD media "video_view_count" .null))))
  let idv ← pyAttr media "id"
  let pkv ← pyAttr media "pk"
  let codev ← pyAttr media "code"
  let mt ← pyAttr media "media_type"
  let pt ← pyGetAttrD media "product_type" .null
  let mts ← get_media_type_str mt pt
  let captionv ← pyAttr media "caption_text"
  let iso ←
    match taken_at with
    | .dt d => pure d.isoformat
    | _ => if taken_at.isTruthy then Except.error "AttributeError: isoformat" else pure ""
  let tu ← pyAttr media "thumbnail_url"
  let vu ← pyAttr media "video_url"
  let lc ← pyAttr media "like_count"
  let cc ← pyAttr media "comment_count"
  let stats ← mkInstagramMediaStats (pyOr lc (.int 0)) (pyOr cc (.int 0)) view_count
  let userv ← pyAttr media "user"
  let author ← if userv.isTruthy then pyAttr userv "username" else pure (.str "")
  mkInstagramMediaResponse (.str (pyStr idv)) (.str (pyStr pkv)) codev
    mts (pyOr captionv (.str "")) taken_at iso
    (if tu.isTruthy then .str (pyStr tu) else .null)
    (if vu.isTruthy then .str (pyStr vu) else .null) stats author

/-- The `taken_at` conversion of `parse_instagram_media_dict`
(lines 655-663): source value from `taken_at` or `taken_at_timestamp`; a
bare `except` degrades every conversion failure to `None`. -/
def instagram_media_taken_at (data : PyVal) : Except String (Option PyDatetime) := do
  let raw ← pyOrE (pyGet data "taken_at" .null) (pyGet data "taken_at_timestamp" .null)
  if raw.isTruthy then
    pure (match (do
        let n ← pyInt raw
        datetime_fromtimestamp n : Except String PyDatetime) with
      | .ok t => some t
      | .error _ => Option.none)
  else
    pure Option.none

/-- The thumbnail extraction of `parse_instagram_media_dict`
(lines 670-679). -/
def instagram_media_thumbnail (data : PyVal) : Except String PyVal := do
  let hasThumb ← pyContains data "thumbnail_url"
  if hasThumb then
    pySubscript data "thumbnail_url"
  else do
    let hasIv ← pyContains data "image_versions2"
    if hasIv then do
      let iv ← pySubscript data "image_versions2"
      let candidates ← pyGet iv "candidates" (.list [])
      if candidates.isTruthy then do
        let c0 ← pyIndex0 candidates
        pyGet c0 "url" .null
      else
        pure .null
    else do
      let hasDu ← pyContains data "display_url"
      if hasDu then pySubscript data "display_url" else pure .null

/-- The video-url extraction of `parse_instagram_media_dict`
(lines 682-686). -/
def instagram_media_video_url (data : PyVal) : Except String PyVal := do
  let video_url ← pyGet data "video_url" .null
  let hasVv ← if !video_url.isTruthy then pyContains data "video_versions" else pure false
  if hasVv then do
    let versions ← pyGet data "video_versions" (.list [])
    if versions.isTruthy then do
      let v0 ← pyIndex0 versions
      pyGet v0 "url" .null
    else
      pure video_url
  else
    pure video_url

/-- The view-count extraction of `parse_instagram_media_dict`
(lines 692-700).  Python's conditional expression binds looser than `or`,
so the whole chain is guarded by `isinstance(data.get('clips_metadata'),
dict)` and the expression is `None` whenever `clips_metadata` is absent or
not a dictionary. -/
def instagram_media_view_count (data : PyVal) : Except String PyVal := do
  let cm ← pyGet data "clips_metadata" .null
  if cm.isDict then
    pyOrE (pyGet data "play_count" .null)
      (pyOrE (pyGet data "ig_play_count" .null)
        (pyOrE (pyGet data "video_play_count" .null)
          (pyOrE (pyGet data "view_count" .null)
            (pyOrE (pyGet data "video_view_count" .null)
              (pyOrE (pyGet data "fb_play_count" .null)
                (do
                  let c ← pyGet data "clips_metadata" (.dict [])
                  pyGet c "play_count" .null))))))
  else
    pure .null

/-- The caption extraction of `parse_instagram_media_dict` (line 711). -/
def instagram_media_caption (data : PyVal) : Except String PyVal := do
  let c ← pyGet data "caption" .null
  if c.isDict then do
    let cd ← pyGet data "caption" (.dict [])
    pyGet cd "text" (.str "")
  else
    pyOrE3 (pyGet data "caption_text" (.str "")) (pyGet data "caption" (.str ""))
      (pure (.str ""))

/-- The author extraction of `parse_instagram_media_dict`
(lines 703-704). -/
def instagram_media_author (data : PyVal) : Except String PyVal := do
  let userv ← pyGet data "user" (.dict [])
  if userv.isDict then pyGet userv "username" (.str "") else pure (.str "")

/-- `parse_instagram_media_dict` (lines 651-722). -/
def parse_instagram_media_dict (data : PyVal) : Except String InstagramMediaResponse := do
  let taken_at ← instagram_media_taken_at data
  let media_type_raw ← pyGet data "media_type" (.int 1)
  let product_type ← pyGet data "product_type" .null
  let media_type ← get_media_type_str media_type_raw product_type
  let thumbnail ← instagram_media_thumbnail data
  let video_url ← instagram_media_video_url data
  let like_count ← pyOrE (pyGet data "like_count" (.int 0))
    (do
      let e ← pyGet data "edge_media_preview_like" (.dict [])
      pyGet e "count" (.int 0))
  let comment_count ← pyOrE (pyGet data "comment_count" (.int 0))
    (do
      let e ← pyGet data "edge_media_to_comment" (.dict [])
      pyGet e "count" (.int 0))
  let view_count ← instagram_media_view_count data
  let author ← instagram_media_author data
  let idv ← pyGet data "id" (.str "")
  let pk_default ← pyGet data "id" (.str "")
  let pkv ← pyGet data "pk" pk_default
  let code_default ← pyGet data "shortcode" (.str "")
  let codev ← pyGet data "code" code_default
  let caption ← instagram_media_caption data
  let stats ← mkInstagramMediaStats like_count comment_count view_count
  mkInstagramMediaResponse (.str (pyStr idv)) (.str (pyStr pkv)) codev media_type
    caption (optDtToPy taken_at)
    (match taken_at with
     | some t => t.isoformat
     | Option.none => "")
    thumbnail video_url stats author

/-- `parse_instagram_comment` (lines 725-741), over library objects. -/
def parse_instagram_comment (comment : PyVal) : Except String InstagramComment := do
  let created_at ← pyAttr comment "created_at_utc"
  let pkv ← pyAttr comment "pk"
  let textv ← pyAttr comment "text"
  let iso ←
    match created_at with
    | .dt d => pure d.isoformat
    | _ => if created_at.isTruthy then Except.error "AttributeError: isoformat" else pure ""
  let likec ← pyAttr comment "like_count"
  let userv ← pyAttr comment "user"
  let uid ←
    if userv.isTruthy then do
      let p ← pyAttr userv "pk"
      pure (PyVal.str (pyStr p))
    else pure (.str "")
  let uname ← if userv.isTruthy then pyAttr userv "username" else pure (.str "")
  let ufull ← if userv.isTruthy then pyAttr userv "full_name" else pure (.str "")
  let uav ←
    if userv.isTruthy then do
      let ppu ← pyAttr userv "profile_pic_url"
      pure (if ppu.isTruthy then PyVal.str (pyStr ppu) else PyVal.null)
    else pure .null
  let author ← mkInstagramCommentAuthor uid uname ufull uav
  mkInstagramComment (.str (pyStr pkv)) (pyOr textv (.str "")) created_at iso
    (pyOr likec (.int 0)) author

/-- The `created_at` conversion of `parse_instagram_comment_dict`
(lines 748-756). -/
def instagram_comment_created_at (data : PyVal) : Except String (Option PyDatetime) := do
  let raw ← pyOrE (pyGet data "created_at" .null) (pyGet data "created_at_utc" .null)
  if raw.isTruthy then
    pure (match (do
        let n ← pyInt raw
        datetime_fromtimestamp n : Except String PyDatetime) with
      | .ok t => some t
      | .error _ => Option.none)
  else
    pure Option.none

/-- `parse_instagram_comment_dict` (lines 744-773). -/
def parse_instagram_comment_dict (data : PyVal) : Except String InstagramComment := do
  let created_at ← instagram_comment_created_at data
  let userv ← pyGet data "user" (.dict [])
  let pk_default ← pyGet data "id" (.str "")
  let pkv ← pyGet data "pk" pk_default
  let textv ← pyGet data "text" (.str "")
  let likes ← pyOrE (pyGet data "comment_like_count" (.int 0))
    (pyGet data "like_count" (.int 0))
  let uid_default ← pyGet userv "id" (.str "")
  let uidv ← pyGet userv "pk" uid_default
  let uname ← pyGet userv "username" (.str "")
  let ufull ← pyGet userv "full_name" (.str "")
  let uavatar ← pyGet userv "profile_pic_url" .null
  let author ← mkInstagramCommentAuthor (.str (pyStr uidv)) uname ufull uavatar
  mkInstagramComment (.str (pyStr pkv)) textv (optDtToPy created_at)
    (match created_at with
     | some t => t.isoformat
     | Option.none => "")
    likes author

/-- `parse_instagram_follower` (lines 776-785), over library objects. -/
def parse_instagram_follower (user : PyVal) : Except String InstagramFollowerResponse := do
  let pk ← pyAttr user "pk"
  let uname ← pyAttr user "username"
  let fn ← pyAttr user "full_name"
  let ppu ← pyAttr user "profile_pic_url"
  let isPriv ← pyGetAttrD user "is_private" (.bool false)
  let isVer ← pyGetAttrD user "is_verified" (.bool false)
  mkInstagramFollowerResponse (.str (pyStr pk)) uname (pyOr fn (.str ""))
    (if ppu.isTruthy then .str (pyStr ppu) else .null) isPriv isVer

/-! ## Session managers -/

/-- Truthiness of an optional environment string (`bool(...)` in the
source); unset and empty both count as not configured. -/
def optStrTruthy : Option String → Bool
  | Option.none => false
  | some s => s != ""

/-- Per-platform session state: the `…_session_initialized` flag and the
`…_session_error` message. -/
structure SessionState where
  initialized : Bool
  error : Option String
deriving DecidableEq

/-- Boolean substring test (`needle in haystack` on strings). -/
def containsSubstr (needle haystack : String) : Bool :=
  decide (List.IsInfix needle.toList haystack.toList)

/-- `str.lower()`. -/
def lowerString (s : String) : String :=
  String.mk (s.toList.map Char.toLower)

/-- The error-message classification of `ensure_tiktok_session`
(lines 567-579). -/
def tiktok_session_error_detail (error_msg : String) : String :=
  if containsSubstr "Timeout" error_msg then
    "TikTok connection timed out. Possible causes:\n1. Your MS_TOKEN may be expired - get a fresh one from browser cookies\n2. TikTok may be blocking your IP - try using a VPN or proxy\n3. Network issues - check your internet connection\nOriginal error: " ++ error_msg
  else if containsSubstr "ms_token" (lowerString error_msg) then
    "Invalid MS_TOKEN. Please get a fresh msToken from TikTok cookies in your browser."
  else
    "Failed to create TikTok session: " ++ error_msg

/-- Result of one call to a session-ensure operation: the HTTP-level
outcome, the session state afterwards, and how many upstream
login/creation calls were performed. -/
structure EnsureOutcome where
  result : Except HTTPError Unit
  state : SessionState
  login_attempts : Nat
deriving DecidableEq

/-- `ensure_tiktok_session` (lines 503-581): `ms_token` is the `MS_TOKEN`
configuration and `create_sessions_result` the outcome of the
`create_sessions` upstream call. -/
def ensure_tiktok_session (ms_token : Option String)
    (create_sessions_result : Except String Unit) (s : SessionState) : EnsureOutcome :=
  if s.initialized then ⟨.ok (), s, 0⟩
  else if !optStrTruthy ms_token then
    ⟨.error ⟨503, "TikTok MS_TOKEN not configured. Please set it in .env file."⟩,
     { s with error := some "MS_TOKEN not configured" }, 0⟩
  else
    match create_sessions_result with
    | .ok _ => ⟨.ok (), ⟨true, Option.none⟩, 1⟩
    | .error e => ⟨.error ⟨503, tiktok_session_error_detail e⟩, ⟨false, some e⟩, 1⟩

/-- The classified Instagram login failures: the three `instagrapi`
exception kinds the source names, and everything else with its message. -/
inductive InstaLoginExc where
  | twoFactorRequired
  | challengeRequired
  | pleaseWaitFewMinutes
  | other (msg : String)
deriving DecidableEq

/-- The `except` clauses of `ensure_instagram_session` (lines 930-941):
the recorded `instagram_session_error` and the raised `HTTPException` for
each escaping exception. -/
def classify_instagram_login_failure : InstaLoginExc → String × HTTPError
  | .twoFactorRequired =>
    ("Two-factor authentication required",
     ⟨503, "Instagram 2FA required. Please disable 2FA or use session ID login."⟩)
  | .challengeRequired =>
    ("Challenge required (suspicious login detected)",
     ⟨503, "Instagram challenge required. Please use session ID login instead."⟩)
  | .pleaseWaitFewMinutes =>
    ("Rate limited - please wait",
     ⟨429, "Instagram rate limited. Please wait a few minutes."⟩)
  | .other m => (m, ⟨503, "Failed to login to Instagram: " ++ m⟩)

/-- Instagram credential configuration. -/
structure InstagramConfig where
  session_id : Option String
  username : Option String
  password : Option String

/-- Outcomes of the upstream calls `ensure_instagram_session` may make, in
tier order. -/
structure InstagramLoginEnv where
  sessionid_login : Except InstaLoginExc Unit
  session_file_exists : Bool
  load_and_validate : Except InstaLoginExc Unit
  userpass_login : Except InstaLoginExc Unit

/-- Tier 3 of `ensure_instagram_session` (lines 919-928): username/password
login, or `raise Exception("No valid login method available")`; an escaping
exception is classified by the `except` clauses. -/
def instagram_login_tier3 (env : InstagramLoginEnv) (has_user_pass : Bool) (n : Nat) :
    EnsureOutcome :=
  if has_user_pass then
    match env.userpass_login with
    | .ok _ => ⟨.ok (), ⟨true, Option.none⟩, n + 1⟩
    | .error exc =>
      let c := classify_instagram_login_failure exc
      ⟨.error c.2, ⟨false, some c.1⟩, n + 1⟩
  else
    let c := classify_instagram_login_failure (.other "No valid login method available")
    ⟨.error c.2, ⟨false, some c.1⟩, n⟩

/-- Tier 2 of `ensure_instagram_session` (lines 871-916): load the saved
session file and validate it; any failure is absorbed by the bare inner
`except` and falls through to tier 3. -/
def instagram_login_tier2 (env : InstagramLoginEnv) (has_user_pass : Bool) (n : Nat) :
    EnsureOutcome :=
  if env.session_file_exists then
    match env.load_and_validate with
    | .ok _ => ⟨.ok (), ⟨true, Option.none⟩, n + 1⟩
    | .error _ => instagram_login_tier3 env has_user_pass (n + 1)
  else
    instagram_login_tier3 env has_user_pass n

/-- `ensure_instagram_session` (lines 803-941).  Tier 1 is the session-id
login, whose failure the inner `except` absorbs before falling through. -/
def ensure_instagram_session (cfg : InstagramConfig) (env : InstagramLoginEnv)
    (s : SessionState) : EnsureOutcome :=
  if s.initialized then ⟨.ok (), s, 0⟩
  else
    let has_session_id := optStrTruthy cfg.session_id
    let has_user_pass := optStrTruthy cfg.username && optStrTruthy cfg.password
    if !has_session_id && !has_user_pass then
      ⟨.error ⟨503, "Instagram credentials not configured. Please set INSTAGRAM_SESSION_ID or (INSTAGRAM_USERNAME and INSTAGRAM_PASSWORD) in .env file."⟩,
       { s with error := some "Instagram credentials not configured" }, 0⟩
    else if has_session_id then
      match env.sessionid_login with
      | .ok _ => ⟨.ok (), ⟨true, Option.none⟩, 1⟩
      | .error _ => instagram_login_tier2 env has_user_pass 1
    else
      instagram_login_tier2 env has_user_pass 0

/-! ## API-key gate -/

/-- `verify_api_key` (lines 964-982): `API_KEY` is the configured shared
secret, `api_key` the request's `X-API-Key` header as delivered by the
framework (missing or empty arrives as `None`). -/
def verify_api_key (API_KEY api_key : Option String) : Except HTTPError Bool :=
  if !optStrTruthy API_KEY then .ok true
  else if !optStrTruthy api_key then
    .error ⟨401, "Missing API key. Please provide X-API-Key header."⟩
  else if api_key ≠ API_KEY then .error ⟨403, "Invalid API key."⟩
  else .ok true

/-! ## Pacing helper -/

/-- The two per-platform last-request timestamps (times are rationals in
seconds, standing for Python floats). -/
structure PacingClock where
  last_tiktok_request_time : ℚ
  last_instagram_request_time : ℚ
deriving DecidableEq

/-- `apply_request_delay` (lines 449-475): `now` is the first
`time.time()` reading, `draw` the `random.uniform(min, max)` sample, and
`after` the `time.time()` reading taken after any sleep.  Returns the
seconds slept and the updated clock. -/
def apply_request_delay (enable_anti_detection : Bool)
    (min_request_delay max_request_delay : ℚ) (platform : String)
    (now draw after : ℚ) (st : PacingClock) : ℚ × PacingClock :=
  if !enable_anti_detection then (0, st)
  else
    let last_request_time :=
      if platform = "tiktok" then st.last_tiktok_request_time
      else st.last_instagram_request_time
    let time_since_last := now - last_request_time
    let delay := if time_since_last < min_request_delay then draw else 0
    let st' :=
      if platform = "tiktok" then { st with last_tiktok_request_time := after }
      else { st with last_instagram_request_time := after }
    (delay, st')

/-- `apply_request_delay_sync` (lines 478-500): same logic, with the
platform test written against `"instagram"`. -/
def apply_request_delay_sync (enable_anti_detection : Bool)
    (min_request_delay max_request_delay : ℚ) (platform : String)
    (now draw after : ℚ) (st : PacingClock) : ℚ × PacingClock :=
  if !enable_anti_detection then (0, st)
  else
    let last_request_time :=
      if platform = "instagram" then st.last_instagram_request_time
      else st.last_tiktok_request_time
    let time_since_last := now - last_request_time
    let delay := if time_since_last < min_request_delay then draw else 0
    let st' :=
      if platform = "instagram" then { st with last_instagram_request_time := after }
      else { st with last_tiktok_request_time := after }
    (delay, st')

/-! ## Identifier resolution -/

/-- `str.isdigit()` (ASCII digits). -/
def pyIsDigit (s : String) : Bool :=
  s != "" && s.toList.all Char.isDigit

/-- A call to `instagram_client.media_pk_from_code`, instrumented to count
how often the resolver is invoked. -/
def media_pk_from_code_call (media_pk_from_code : String → String) (code : String) :
    StateM Nat String :=
  fun calls => (media_pk_from_code code, calls + 1)

/-- The identifier-resolution step of `get_instagram_post_by_id`
(lines 1288-1292). -/
def get_instagram_post_by_id_resolve (media_pk_from_code : String → String)
    (media_id : String) : StateM Nat String :=
  if pyIsDigit media_id then pure media_id
  else media_pk_from_code_call media_pk_from_code media_id

/-- The identifier-resolution step of `get_instagram_post_comments`
(lines 1350-1352): `media_id = str(media_pk_from_code(media_id))` for
non-numeric identifiers (`str` is the identity on the string the resolver
returns). -/
def get_instagram_post_comments_resolve (media_pk_from_code : String → String)
    (media_id : String) : StateM Nat String :=
  if !pyIsDigit media_id then do
    let pk ← media_pk_from_code_call media_pk_from_code media_id
    pure (pyStr (.str pk))
  else pure media_id

/-! ## Route handlers

Each handler model takes the outcome of every external library call it
makes as an argument (in source order), and mirrors the handler's
try/except structure after the session and pacing steps. -/

/-- `str.lstrip("@")`. -/
def lstripAt (s : String) : String :=
  String.mk (s.toList.dropWhile (· == '@'))

/-- `get_tiktok_video_comments` (lines 1054-1080): `video_comments count`
is the upstream comment list for the requested `count` (each element the
comment's `as_dict`). -/
def get_tiktok_video_comments (video_id : String) (count : Int)
    (video_comments : Int → Except String (List PyVal)) :
    Except HTTPError TikTokCommentsResponse :=
  match (do
    let cs ← video_comments count
    cs.foldlM (fun acc c => do
      let parsed ← parse_tiktok_comment c
      pure (acc ++ [parsed])) ([] : List TikTokComment) :
      Except String (List TikTokComment)) with
  | .ok comments => .ok ⟨video_id, comments.length, comments⟩
  | .error e => .error ⟨500, "Error fetching TikTok comments: " ++ e⟩

/-- The `{"username": …, "count": …, "videos": …}` payload of
`get_tiktok_user_videos`. -/
structure TikTokUserVideosResponse where
  username : String
  count : Nat
  videos : List TikTokVideoResponse
deriving DecidableEq

/-- `get_tiktok_user_videos` (lines 1101-1124). -/
def get_tiktok_user_videos (username : String) (count : Int) (now : PyDatetime)
    (user_videos : Int → Except String (List PyVal)) :
    Except HTTPError TikTokUserVideosResponse :=
  let uname := lstripAt username
  match (do
    let vs ← user_videos count
    vs.foldlM (fun acc v => do
      let parsed ← parse_tiktok_video_data now v
      pure (acc ++ [parsed])) ([] : List TikTokVideoResponse) :
      Except String (List TikTokVideoResponse)) with
  | .ok videos => .ok ⟨uname, videos.length, videos⟩
  | .error e => .error ⟨500, "Error fetching TikTok user videos: " ++ e⟩

/-- The `{"username": …, "count": …, "posts": …}` payload of
`get_instagram_user_posts`. -/
structure InstagramUserPostsResponse where
  username : String
  count : Nat
  posts : List InstagramMediaResponse
deriving DecidableEq

/-- The per-media loop of the GQL branch of `get_instagram_user_posts`
(lines 1188-1195): object parse first, then the raw-dict parse when the
media has a `__dict__`; a failure of the raw-dict parse escapes to the
enclosing `except` (signalled by `some errorMessage`). -/
def instagram_user_posts_gql_loop :
    List PyVal → List InstagramMediaResponse →
    List InstagramMediaResponse × Option String
  | [], acc => (acc, Option.none)
  | m :: rest, acc =>
    match parse_instagram_media m with
    | .ok r => instagram_user_posts_gql_loop rest (acc ++ [r])
    | .error _ =>
      if pyHasDunderDict m then
        match parse_instagram_media_dict m with
        | .ok r => instagram_user_posts_gql_loop rest (acc ++ [r])
        | .error e => (acc, some e)
      else
        instagram_user_posts_gql_loop rest acc

/-- The per-item loop of the V1 branch of `get_instagram_user_posts`
(lines 1205-1209): parse failures are printed and skipped. -/
def instagram_user_posts_v1_loop :
    List PyVal → List InstagramMediaResponse → List InstagramMediaResponse
  | [], acc => acc
  | it :: rest, acc =>
    match parse_instagram_media_dict it with
    | .ok r => instagram_user_posts_v1_loop rest (acc ++ [r])
    | .error _ => instagram_user_posts_v1_loop rest acc

/-- The V1 fallback of `get_instagram_user_posts` (lines 1198-1211): any
failure is printed and absorbed, leaving the posts accumulated so far. -/
def instagram_user_posts_v1 (acc : List InstagramMediaResponse)
    (v1_feed : Except String PyVal) : List InstagramMediaResponse :=
  match (do
    let response ← v1_feed
    let items ← pyGet response "items" (.list [])
    let itemsList ← pyIter items
    Except.ok (instagram_user_posts_v1_loop itemsList acc) :
      Except String (List InstagramMediaResponse)) with
  | .ok posts => posts
  | .error _ => acc

/-- `get_instagram_user_posts` (lines 1171-1215): `user_medias_gql count`
is the GQL call for the requested count, `v1_feed count` the raw V1 feed
response. -/
def get_instagram_user_posts (username : String) (count : Int)
    (user_id_from_username : Except String String)
    (user_medias_gql : Int → Except String (List PyVal))
    (v1_feed : Int → Except String PyVal) : Except HTTPError InstagramUserPostsResponse :=
  let uname := lstripAt username
  match user_id_from_username with
  | .error e => .error ⟨500, "Error fetching Instagram posts: " ++ e⟩
  | .ok _user_id =>
    let posts :=
      match user_medias_gql count with
      | .ok medias =>
        match instagram_user_posts_gql_loop medias [] with
        | (acc, Option.none) => acc
        | (acc, some _gql_error) => instagram_user_posts_v1 acc (v1_feed count)
      | .error _gql_error => instagram_user_posts_v1 [] (v1_feed count)
    .ok ⟨uname, posts.length, posts⟩

/-- The all-or-nothing list comprehension of the chunk branch of
`get_instagram_post_comments` (line 1365). -/
def instagram_comments_chunk_parse : List PyVal → Except String (List InstagramComment)
  | [] => .ok []
  | c :: rest => do
    let p ← parse_instagram_comment c
    let ps ← instagram_comments_chunk_parse rest
    pure (p :: ps)

/-- The per-comment loop of the raw-API fallback of
`get_instagram_post_comments` (lines 1381-1385): parse failures are
printed and skipped. -/
def instagram_comments_raw_loop :
    List PyVal → List InstagramComment → List InstagramComment
  | [], acc => acc
  | rc :: rest, acc =>
    match parse_instagram_comment_dict rc with
    | .ok p => instagram_comments_raw_loop rest (acc ++ [p])
    | .error _ => instagram_comments_raw_loop rest acc

/-- The raw-API fallback of `get_instagram_post_comments`
(lines 1370-1391): on any failure the accumulated state is kept
(`comment_list` as built, cursor `None`, `has_more` false). -/
def instagram_comments_raw_fallback (acc : List InstagramComment)
    (raw_comments_api : Except String PyVal) :
    List InstagramComment × PyVal × PyVal :=
  match (do
    let response ← raw_comments_api
    let raw_comments ← pyGet response "comments" (.list [])
    let rcl ← pyIter raw_comments
    let cl := instagram_comments_raw_loop rcl acc
    let nc ← pyOrE (pyGet response "next_min_id" .null) (pyGet response "next_max_id" .null)
    let hmc ← pyGet response "has_more_comments" (.bool false)
    Except.ok (cl, nc, pyOr hmc (.bool nc.isTruthy)) :
      Except String (List InstagramComment × PyVal × PyVal)) with
  | .ok r => r
  | .error _ => (acc, .null, .bool false)

/-- `get_instagram_post_comments` (lines 1335-1401): `media_pk_from_code`
resolves a short-code, `media_comments_chunk count cursor` is the
paginated chunk call (comment objects plus `end_cursor`), and
`raw_comments_api count cursor` the raw private-API response. -/
def get_instagram_post_comments (media_id : String) (count : Int) (cursor : Option String)
    (media_pk_from_code : String → Except String String)
    (media_comments_chunk : Int → Option String → Except String (List PyVal × PyVal))
    (raw_comments_api : Int → Option String → Except String PyVal) :
    Except HTTPError InstagramCommentsResponse :=
  match (if !pyIsDigit media_id then
      (media_pk_from_code media_id).map (fun pk => pyStr (.str pk))
    else .ok media_id) with
  | .error e => .error ⟨500, "Error fetching Instagram comments: " ++ e⟩
  | .ok mid =>
    let state : List InstagramComment × PyVal × PyVal :=
      match media_comments_chunk count cursor with
      | .ok (comments, end_cursor) =>
        match instagram_comments_chunk_parse comments with
        | .ok cl => (cl, end_cursor, .bool end_cursor.isTruthy)
        | .error _ => instagram_comments_raw_fallback [] (raw_comments_api count cursor)
      | .error _ => instagram_comments_raw_fallback [] (raw_comments_api count cursor)
    match coerceOptStr state.2.1, coerceBool state.2.2 with
    | .error e, _ => .error ⟨500, "Error fetching Instagram comments: " ++ e⟩
    | .ok _, .error e => .error ⟨500, "Error fetching Instagram comments: " ++ e⟩
    | .ok next_cursor, .ok has_more =>
      .ok ⟨pyStr (.str mid), state.1.length, state.1, next_cursor, has_more⟩

/-- The `{"username": …, "count": …, "followers": …}` payload of
`get_instagram_user_followers`. -/
structure InstagramFollowersResponse where
  username : String
  count : Nat
  followers : List InstagramFollowerResponse
deriving DecidableEq

/-- The all-or-nothing list comprehension of `get_instagram_user_followers`
(line 1252). -/
def instagram_followers_parse : List PyVal → Except String (List InstagramFollowerResponse)
  | [] => .ok []
  | u :: rest => do
    let p ← parse_instagram_follower u
    let ps ← instagram_followers_parse rest
    pure (p :: ps)

/-- `get_instagram_user_followers` (lines 1237-1256): `user_followers
count` stands for `user_followers(user_id, amount=count).values()`. -/
def get_instagram_user_followers (username : String) (count : Int)
    (user_id_from_username : Except String String)
    (user_followers : Int → Except String (List PyVal)) :
    Except HTTPError InstagramFollowersResponse :=
  let uname := lstripAt username
  match (do
    let _uid ← user_id_from_username
    let followers ← user_followers count
    instagram_followers_parse followers :
      Except String (List InstagramFollowerResponse)) with
  | .ok fl => .ok ⟨uname, fl.length, fl⟩
  | .error e => .error ⟨500, "Error fetching Instagram followers: " ++ e⟩

/-! ## Toolkit lemmas -/

theorem exceptRaises_ok {α : Type} (a : α) : exceptRaises (.ok a) = false := rfl

/-- The upstream payload of the spec's end-to-end example. -/
def tiktok_video_example_payload : PyVal := .dict [
  ("id", .str "1234567890"), ("desc", .str "hi"), ("createTime", .str "1700000000"),
  ("stats", .dict [("playCount", .int 5), ("diggCount", .int 1)]),
  ("author", .dict [("uniqueId", .str "bob")])]

/-- C2: on the payload `{"id":"1234567890","desc":"hi","createTime":"1700000000",
"stats":{"playCount":5,"diggCount":1},"author":{"uniqueId":"bob"}}` the TikTok
video normalizer returns views=5, likes=1, comments=0, shares=0,
`create_time_iso` equal to the ISO-8601 form of epoch 1700000000 (namely
`"2023-11-14T22:13:20"`), and author username `"bob"`, whatever the current
time is. -/
theorem c2_tiktok_video_example (now : PyDatetime) :
    parse_tiktok_video_data now tiktok_video_example_payload =
      .ok ⟨"1234567890", "hi", ⟨1700000000⟩, (PyDatetime.mk 1700000000).isoformat,
        ⟨5, 1, 0, 0⟩, ⟨"", "bob", "", Option.none⟩⟩
    ∧ (PyDatetime.mk 1700000000).isoformat = "2023-11-14T22:13:20" := by
  exact ⟨rfl, by decide⟩

/-! ## C9: epoch 0 / absent timestamps -/

/-- C9: with the timestamp field absent or epoch `0`, the TikTok video
normalizer (whose output timestamp is mandatory) produces the deterministic
epoch-0 datetime — independent of the current time — while the TikTok
comment, Instagram comment-dict and Instagram media-dict normalizers (whose
output timestamp is optional) produce `None`. -/
theorem c9_timestamp_zero_or_absent (now : PyDatetime) :
    ((parse_tiktok_video_data now (.dict [])).map (fun r => r.create_time) = .ok ⟨0⟩)
  ∧ ((parse_tiktok_video_data now (.dict [("createTime", .int 0)])).map
      (fun r => r.create_time) = .ok ⟨0⟩)
  ∧ ((parse_tiktok_comment (.dict [])).map (fun r => r.create_time) = .ok Option.none)
  ∧ ((parse_tiktok_comment (.dict [("createTime", .int 0)])).map
      (fun r => r.create_time) = .ok Option.none)
  ∧ ((parse_instagram_comment_dict (.dict [])).map (fun r => r.create_time) =
      .ok Option.none)
  ∧ ((parse_instagram_comment_dict (.dict [("created_at", .int 0)])).map
      (fun r => r.create_time) = .ok Option.none)
  ∧ ((parse_instagram_media_dict (.dict [])).map (fun r => r.create_time) =
      .ok Option.none)
  ∧ ((parse_instagram_media_dict (.dict [("taken_at", .int 0)])).map
      (fun r => r.create_time) = .ok Option.none) := by
  exact ⟨rfl, rfl, rfl, rfl, rfl, rfl, rfl, rfl⟩

/-! ## C3: identifier resolution -/

/-- C3: in both Instagram media-lookup handlers, a purely numeric identifier
is used directly as the primary key without invoking the short-code
resolver, and a non-numeric identifier invokes the resolver exactly once
and uses its result. -/
theorem c3_identifier_resolution (media_pk_from_code : String → String) (media_id : String) :
    ((get_instagram_post_by_id_resolve media_pk_from_code media_id).run 0 =
      if pyIsDigit media_id then (media_id, 0) else (media_pk_from_code media_id, 1))
  ∧ ((get_instagram_post_comments_resolve media_pk_from_code media_id).run 0 =
      if pyIsDigit media_id then (media_id, 0) else (media_pk_from_code media_id, 1)) := by
  unfold get_instagram_post_by_id_resolve get_instagram_post_comments_resolve
    media_pk_from_code_call
  by_cases h : pyIsDigit media_id <;>
    simp [h, StateM, StateT.run, pure, StateT.pure, bind, StateT.bind, pyStr]

/-! ## C7: API-key gate -/

/-- C7: with a shared secret configured, a request without the
`X-API-Key` header is rejected with 401, a request with a wrong (non-empty)
value with 403, and a request with the correct value proceeds; with no
secret configured (unset or empty), every request proceeds. -/
theorem c7_verify_api_key (k : String) (hk : k ≠ "") :
    verify_api_key (some k) Option.none =
      .error ⟨401, "Missing API key. Please provide X-API-Key header."⟩
  ∧ (∀ v : String, v ≠ "" → v ≠ k →
      verify_api_key (some k) (some v) = .error ⟨403, "Invalid API key."⟩)
  ∧ verify_api_key (some k) (some k) = .ok true
  ∧ (∀ h : Option String, verify_api_key Option.none h = .ok true)
  ∧ (∀ h : Option String, verify_api_key (some "") h = .ok true) := by
  refine ⟨?_, ?_, ?_, ?_, ?_⟩
  · simp [verify_api_key, optStrTruthy, hk]
  · intro v hv hvk
    simp [verify_api_key, optStrTruthy, hk, hv, hvk]
  · simp [verify_api_key, optStrTruthy, hk]
  · intro h; simp [verify_api_key, optStrTruthy]
  · intro h; simp [verify_api_key, optStrTruthy]

/-- Witness for C7 at the concrete secret `"secret"`. -/
theorem c7_verify_api_key_witness :
    verify_api_key (some "secret") Option.none =
      .error ⟨401, "Missing API key. Please provide X-API-Key header."⟩
  ∧ verify_api_key (some "secret") (some "wrong") = .error ⟨403, "Invalid API key."⟩
  ∧ verify_api_key (some "secret") (some "secret") = .ok true
  ∧ verify_api_key Option.none (some "anything") = .ok true :=
  ⟨(c7_verify_api_key "secret" (by decide)).1,
   (c7_verify_api_key "secret" (by decide)).2.1 "wrong" (by decide) (by decide),
   (c7_verify_api_key "secret" (by decide)).2.2.1,
   (c7_verify_api_key "secret" (by decide)).2.2.2.1 (some "anything")⟩

/-! ## C5: Instagram login-failure classification -/

/-- C5 counterexample: the claim says the three classified login failures
map to pairwise distinct status codes, but two-factor and challenge both
map to status 503. -/
theorem c5_counterexample_statuses_equal :
    (classify_instagram_login_failure .twoFactorRequired).2.status =
      (classify_instagram_login_failure .challengeRequired).2.status := rfl

/-- C5 (amended): the session manager maps the three classified login
failures to pairwise distinct HTTP status/detail combinations (two-factor
and challenge share status 503 but carry different guidance; rate-limiting
gets 429), and any other failure maps to a generic 503 carrying the
upstream message; the userpass-login tier of `ensure_instagram_session`
surfaces exactly this classification. -/
theorem c5_login_failure_mapping :
    ((classify_instagram_login_failure .twoFactorRequired).2 =
      ⟨503, "Instagram 2FA required. Please disable 2FA or use session ID login."⟩)
  ∧ ((classify_instagram_login_failure .challengeRequired).2 =
      ⟨503, "Instagram challenge required. Please use session ID login instead."⟩)
  ∧ ((classify_instagram_login_failure .pleaseWaitFewMinutes).2 =
      ⟨429, "Instagram rate limited. Please wait a few minutes."⟩)
  ∧ (classify_instagram_login_failure .twoFactorRequired).2 ≠
      (classify_instagram_login_failure .challengeRequired).2
  ∧ (classify_instagram_login_failure .twoFactorRequired).2 ≠
      (classify_instagram_login_failure .pleaseWaitFewMinutes).2
  ∧ (classify_instagram_login_failure .challengeRequired).2 ≠
      (classify_instagram_login_failure .pleaseWaitFewMinutes).2
  ∧ (∀ m : String, classify_instagram_login_failure (.other m) =
      (m, ⟨503, "Failed to login to Instagram: " ++ m⟩))
  ∧ (∀ (exc : InstaLoginExc) (t1 : Except InstaLoginExc Unit) (fe : Bool)
        (t2 : Except InstaLoginExc Unit) (n : Nat),
      instagram_login_tier3 ⟨t1, fe, t2, .error exc⟩ true n =
        ⟨.error (classify_instagram_login_failure exc).2,
         ⟨false, some (classify_instagram_login_failure exc).1⟩, n + 1⟩) := by
  refine ⟨rfl, rfl, rfl, by decide, by decide, by decide, fun m => rfl, ?_⟩
  intro exc t1 fe t2 n
  rfl

/-! ## C8: pacing -/

/-- C8: with pacing enabled and the uniform draw inside `[min, max]`, a
call whose elapsed time since the platform's last recorded call is below
the minimum sleeps at least `min − elapsed`; a call spaced beyond the
maximum adds no delay; and in either case the platform's last-call
timestamp becomes the post-sleep clock reading.  Stated for the async
helper on the TikTok slot and the sync helper on the Instagram slot. -/
theorem c8_pacing (mn mx now draw after : ℚ) (st : PacingClock)
    (hdmin : mn ≤ draw) (hdmax : draw ≤ mx) :
    ((st.last_tiktok_request_time ≤ now →
        now - st.last_tiktok_request_time < mn →
        mn - (now - st.last_tiktok_request_time) ≤
          (apply_request_delay true mn mx "tiktok" now draw after st).1)
    ∧ (mn ≤ mx → mx < now - st.last_tiktok_request_time →
        (apply_request_delay true mn mx "tiktok" now draw after st).1 = 0)
    ∧ (apply_request_delay true mn mx "tiktok" now draw after
        st).2.last_tiktok_request_time = after)
  ∧ ((st.last_instagram_request_time ≤ now →
        now - st.last_instagram_request_time < mn →
        mn - (now - st.last_instagram_request_time) ≤
          (apply_request_delay_sync true mn mx "instagram" now draw after st).1)
    ∧ (mn ≤ mx → mx < now - st.last_instagram_request_time →
        (apply_request_delay_sync true mn mx "instagram" now draw after st).1 = 0)
    ∧ (apply_request_delay_sync true mn mx "instagram" now draw after
        st).2.last_instagram_request_time = after) := by
  unfold apply_request_delay apply_request_delay_sync
  simp only [Bool.not_true, Bool.false_eq_true, if_false, reduceIte]
  refine ⟨⟨?_, ?_, ?_⟩, ⟨?_, ?_, ?_⟩⟩
  · intro hel hlt
    simp only [if_pos hlt]
    linarith
  · intro hmm hgt
    have : ¬ (now - st.last_tiktok_request_time < mn) := by linarith
    simp only [if_neg this]
  · trivial
  · intro hel hlt
    simp only [if_pos hlt]
    linarith
  · intro hmm hgt
    have : ¬ (now - st.last_instagram_request_time < mn) := by linarith
    simp only [if_neg this]
  · trivial

/-- Witness for C8 at concrete times: last call at t=9.5, next at t=10
with min 1, max 3, draw 2, post-sleep clock 12. -/
theorem c8_pacing_witness :
    ((1 : ℚ) - ((10 : ℚ) - (19 : ℚ)/2) ≤
      (apply_request_delay true 1 3 "tiktok" 10 2 12 ⟨(19 : ℚ)/2, 0⟩).1)
  ∧ (apply_request_delay true 1 3 "tiktok" 10 2 12
      ⟨(19 : ℚ)/2, 0⟩).2.last_tiktok_request_time = 12
  ∧ (apply_request_delay_sync true 1 3 "instagram" 10 2 12
      ⟨0, (5 : ℚ)⟩).1 = 0 := by
  have h1 := c8_pacing 1 3 10 2 12 ⟨(19 : ℚ)/2, 0⟩ (by norm_num) (by norm_num)
  have h2 := c8_pacing 1 3 10 2 12 ⟨0, (5 : ℚ)⟩ (by norm_num) (by norm_num)
  exact ⟨h1.1.1 (by norm_num) (by norm_num), h1.1.2.2,
    h2.2.2.1 (by norm_num) (by norm_num)⟩

/-! ## C6: session-ensure idempotence -/

theorem ensure_tiktok_session_ok_state (ms : Option String) (cr : Except String Unit)
    (s : SessionState) (h : (ensure_tiktok_session ms cr s).result = .ok ()) :
    (ensure_tiktok_session ms cr s).state.initialized = true := by
  unfold ensure_tiktok_session at h ⊢
  by_cases hi : s.initialized = true
  · simpa [hi] using hi
  · simp only [hi, Bool.false_eq_true, if_false] at h ⊢
    rcases hms : optStrTruthy ms with _ | _ <;> simp only [hms] at h ⊢
    · simp at h
    · cases cr with
      | ok u => rfl
      | error e => simp at h

theorem ensure_tiktok_session_ok_attempts (ms : Option String) (cr : Except String Unit)
    (s : SessionState) (hi : s.initialized = false)
    (h : (ensure_tiktok_session ms cr s).result = .ok ()) :
    (ensure_tiktok_session ms cr s).login_attempts = 1 := by
  unfold ensure_tiktok_session at h ⊢
  simp only [hi, Bool.false_eq_true, if_false] at h ⊢
  rcases hms : optStrTruthy ms with _ | _ <;> simp only [hms] at h ⊢
  · simp at h
  · cases cr with
    | ok u => rfl
    | error e => simp at h

theorem ensure_instagram_session_ok_state (cfg : InstagramConfig)
    (env : InstagramLoginEnv) (si : SessionState)
    (h : (ensure_instagram_session cfg env si).result = .ok ()) :
    (ensure_instagram_session cfg env si).state.initialized = true := by
  unfold ensure_instagram_session at h ⊢
  by_cases hi : si.initialized = true
  · simpa [hi] using hi
  · simp only [hi, Bool.false_eq_true, if_false] at h ⊢
    rcases h1 : (!optStrTruthy cfg.session_id &&
        !(optStrTruthy cfg.username && optStrTruthy cfg.password)) with _ | _ <;>
      simp only [h1] at h ⊢
    · rcases h2 : optStrTruthy cfg.session_id with _ | _ <;> simp only [h2] at h ⊢
      · unfold instagram_login_tier2 instagram_login_tier3 at h ⊢
        rcases h3 : env.session_file_exists with _ | _ <;> simp only [h3] at h ⊢
        · rcases h4 : (optStrTruthy cfg.username && optStrTruthy cfg.password)
            with _ | _ <;> simp only [h4] at h ⊢
          · simp at h
          · cases h5 : env.userpass_login with
            | ok u => rfl
            | error e => simp [h5] at h
        · cases h5 : env.load_and_validate with
          | ok u => rfl
          | error e =>
            simp only [h5] at h ⊢
            rcases h4 : (optStrTruthy cfg.username && optStrTruthy cfg.password)
              with _ | _ <;> simp only [h4] at h ⊢
            · simp at h
            · cases h6 : env.userpass_login with
              | ok u => rfl
              | error e2 => simp [h6] at h
      · cases h3 : env.sessionid_login with
        | ok u => rfl
        | error e =>
          simp only [h3] at h ⊢
          unfold instagram_login_tier2 instagram_login_tier3 at h ⊢
          rcases h4 : env.session_file_exists with _ | _ <;> simp only [h4] at h ⊢
          · rcases h5 : (optStrTruthy cfg.username && optStrTruthy cfg.password)
              with _ | _ <;> simp only [h5] at h ⊢
            · simp at h
            · cases h6 : env.userpass_login with
              | ok u => rfl
              | error e2 => simp [h6] at h
          · cases h6 : env.load_and_validate with
            | ok u => rfl
            | error e2 =>
              simp only [h6] at h ⊢
              rcases h5 : (optStrTruthy cfg.username && optStrTruthy cfg.password)
                with _ | _ <;> simp only [h5] at h ⊢
              · simp at h
              · cases h7 : env.userpass_login with
                | ok u => rfl
                | error e3 => simp [h7] at h
    · simp at h

theorem ensure_instagram_session_ok_attempts (cfg : InstagramConfig)
    (env : InstagramLoginEnv) (si : SessionState) (hi : si.initialized = false)
    (h : (ensure_instagram_session cfg env si).result = .ok ()) :
    1 ≤ (ensure_instagram_session cfg env si).login_attempts := by
  unfold ensure_instagram_session at h ⊢
  simp only [hi, Bool.false_eq_true, if_false] at h ⊢
  rcases h1 : (!optStrTruthy cfg.session_id &&
      !(optStrTruthy cfg.username && optStrTruthy cfg.password)) with _ | _ <;>
    simp only [h1] at h ⊢
  · rcases h2 : optStrTruthy cfg.session_id with _ | _ <;> simp only [h2] at h ⊢
    · unfold instagram_login_tier2 instagram_login_tier3 at h ⊢
      rcases h3 : env.session_file_exists with _ | _ <;> simp only [h3] at h ⊢
      · rcases h4 : (optStrTruthy cfg.username && optStrTruthy cfg.password)
          with _ | _ <;> simp only [h4] at h ⊢
        · simp at h
        · cases h5 : env.userpass_login with
          | ok u => simp
          | error e => simp [h5] at h
      · cases h5 : env.load_and_validate with
        | ok u => simp
        | error e =>
          simp only [h5] at h ⊢
          rcases h4 : (optStrTruthy cfg.username && optStrTruthy cfg.password)
            with _ | _ <;> simp only [h4] at h ⊢
          · simp at h
          · cases h6 : env.userpass_login with
            | ok u => simp
            | error e2 => simp [h6] at h
    · cases h3 : env.sessionid_login with
      | ok u => simp
      | error e =>
        simp only [h3] at h ⊢
        unfold instagram_login_tier2 instagram_login_tier3 at h ⊢
        rcases h4 : env.session_file_exists with _ | _ <;> simp only [h4] at h ⊢
        · rcases h5 : (optStrTruthy cfg.username && optStrTruthy cfg.password)
            with _ | _ <;> simp only [h5] at h ⊢
          · simp at h
          · cases h6 : env.userpass_login with
            | ok u => simp
            | error e2 => simp [h6] at h
        · cases h6 : env.load_and_validate with
          | ok u => simp
          | error e2 =>
            simp only [h6] at h ⊢
            rcases h5 : (optStrTruthy cfg.username && optStrTruthy cfg.password)
              with _ | _ <;> simp only [h5] at h ⊢
            · simp at h
            · cases h7 : env.userpass_login with
              | ok u => simp
              | error e3 => simp [h7] at h
  · simp at h

/-- C6: for each platform, if a session-ensure call succeeds, the resulting
state has the initialized flag set, and a second call — whatever its
environment's outcomes would be — returns success immediately, performs no
login work, and leaves the state unchanged; moreover the successful first
call from an uninitialized state performs the login/creation path
(exactly one upstream attempt for TikTok, at least one for Instagram's
tiered login). -/
theorem c6_session_ensure_idempotent
    (ms ms2 : Option String) (cr cr2 : Except String Unit) (s : SessionState)
    (cfg cfg2 : InstagramConfig) (env env2 : InstagramLoginEnv) (si : SessionState) :
    ((ensure_tiktok_session ms cr s).result = .ok () →
        ((ensure_tiktok_session ms cr s).state.initialized = true
      ∧ ensure_tiktok_session ms2 cr2 ((ensure_tiktok_session ms cr s).state) =
          ⟨.ok (), (ensure_tiktok_session ms cr s).state, 0⟩))
  ∧ (s.initialized = false → (ensure_tiktok_session ms cr s).result = .ok () →
        (ensure_tiktok_session ms cr s).login_attempts = 1)
  ∧ ((ensure_instagram_session cfg env si).result = .ok () →
        ((ensure_instagram_session cfg env si).state.initialized = true
      ∧ ensure_instagram_session cfg2 env2 ((ensure_instagram_session cfg env si).state) =
          ⟨.ok (), (ensure_instagram_session cfg env si).state, 0⟩))
  ∧ (si.initialized = false → (ensure_instagram_session cfg env si).result = .ok () →
        1 ≤ (ensure_instagram_session cfg env si).login_attempts) := by
  have htik : ∀ st : SessionState, st.initialized = true →
      ensure_tiktok_session ms2 cr2 st = ⟨.ok (), st, 0⟩ := by
    intro st hst
    unfold ensure_tiktok_session
    simp [hst]
  have hins : ∀ st : SessionState, st.initialized = true →
      ensure_instagram_session cfg2 env2 st = ⟨.ok (), st, 0⟩ := by
    intro st hst
    unfold ensure_instagram_session
    simp [hst]
  refine ⟨?_, ?_, ?_, ?_⟩
  · intro hok
    have hst := ensure_tiktok_session_ok_state ms cr s hok
    exact ⟨hst, htik _ hst⟩
  · intro hi hok
    exact ensure_tiktok_session_ok_attempts ms cr s hi hok
  · intro hok
    have hst := ensure_instagram_session_ok_state cfg env si hok
    exact ⟨hst, hins _ hst⟩
  · intro hi hok
    exact ensure_instagram_session_ok_attempts cfg env si hi hok

/-- Witness for C6 at concrete inputs: a successful TikTok login and a
successful Instagram session-id login, each from an uninitialized state,
followed by a no-op second call. -/
theorem c6_session_ensure_idempotent_witness :
    (ensure_tiktok_session (some "token") (.ok ()) ⟨false, Option.none⟩).state.initialized = true
  ∧ ensure_tiktok_session Option.none (.error "boom")
      ((ensure_tiktok_session (some "token") (.ok ()) ⟨false, Option.none⟩).state) =
      ⟨.ok (), (ensure_tiktok_session (some "token") (.ok ()) ⟨false, Option.none⟩).state, 0⟩
  ∧ (ensure_tiktok_session (some "token") (.ok ()) ⟨false, Option.none⟩).login_attempts = 1
  ∧ ensure_instagram_session ⟨Option.none, Option.none, Option.none⟩
      ⟨.error .challengeRequired, false, .error .challengeRequired, .error .challengeRequired⟩
      ((ensure_instagram_session ⟨some "sid", Option.none, Option.none⟩
          ⟨.ok (), false, .ok (), .ok ()⟩ ⟨false, Option.none⟩).state) =
      ⟨.ok (), (ensure_instagram_session ⟨some "sid", Option.none, Option.none⟩
          ⟨.ok (), false, .ok (), .ok ()⟩ ⟨false, Option.none⟩).state, 0⟩
  ∧ 1 ≤ (ensure_instagram_session ⟨some "sid", Option.none, Option.none⟩
          ⟨.ok (), false, .ok (), .ok ()⟩ ⟨false, Option.none⟩).login_attempts := by
  have h := c6_session_ensure_idempotent (some "token") Option.none (.ok ()) (.error "boom")
    ⟨false, Option.none⟩ ⟨some "sid", Option.none, Option.none⟩
    ⟨Option.none, Option.none, Option.none⟩ ⟨.ok (), false, .ok (), .ok ()⟩
    ⟨.error .challengeRequired, false, .error .challengeRequired, .error .challengeRequired⟩
    ⟨false, Option.none⟩
  exact ⟨(h.1 (by decide)).1, (h.1 (by decide)).2, h.2.1 rfl (by decide),
    (h.2.2.1 (by decide)).2, h.2.2.2 rfl (by decide)⟩

/-! ## C10: collection counts -/

/-- C10: every modelled collection handler's `count` field equals the
length of the list of items it actually normalized, independently of the
count the caller requested. -/
theorem c10_count_equals_length
    (video_id : String) (count1 : Int) (vc : Int → Except String (List PyVal))
    (username1 : String) (count2 : Int) (now : PyDatetime)
    (uv : Int → Except String (List PyVal))
    (mid : String) (count3 : Int) (cursor : Option String)
    (res : String → Except String String)
    (chunk : Int → Option String → Except String (List PyVal × PyVal))
    (raw : Int → Option String → Except String PyVal)
    (username2 : String) (count4 : Int) (uid : Except String String)
    (uf : Int → Except String (List PyVal)) :
    (∀ r, get_tiktok_video_comments video_id count1 vc = .ok r →
      r.count = r.comments.length)
  ∧ (∀ r, get_tiktok_user_videos username1 count2 now uv = .ok r →
      r.count = r.videos.length)
  ∧ (∀ r, get_instagram_post_comments mid count3 cursor res chunk raw = .ok r →
      r.count = r.comments.length)
  ∧ (∀ r, get_instagram_user_followers username2 count4 uid uf = .ok r →
      r.count = r.followers.length) := by
  refine ⟨?_, ?_, ?_, ?_⟩ <;> intro r h
  · unfold get_tiktok_video_comments at h
    split at h
    · injection h with h'; subst h'; rfl
    · exact absurd h (by simp)
  · unfold get_tiktok_user_videos at h
    split at h
    · injection h with h'; subst h'; rfl
    · exact absurd h (by simp)
  · unfold get_instagram_post_comments at h
    repeat'
      first
      | (split at h)
      | (simp only [] at h)
    all_goals
      first
      | (injection h with h'; subst h'; rfl)
      | (injection h)
  · unfold get_instagram_user_followers at h
    split at h
    · injection h with h'; subst h'; rfl
    · exact absurd h (by simp)

/-- Witness for C10: concrete runs in which the caller requests 50 items
but the upstream yields fewer — the `count` field equals the returned list
length (2, 1, 0, 1 respectively), not the requested 50. -/
theorem c10_count_equals_length_witness :
    (∀ r, get_tiktok_video_comments "v1" 50
        (fun _ => .ok [.dict [("text", .str "a")], .dict [("text", .str "b")]]) = .ok r →
      r.count = r.comments.length)
  ∧ get_tiktok_video_comments "v1" 50
      (fun _ => .ok [.dict [("text", .str "a")], .dict [("text", .str "b")]]) =
      .ok ⟨"v1", 2,
        [⟨"", "a", Option.none, "", 0, 0, ⟨"", "", "", Option.none⟩⟩,
         ⟨"", "b", Option.none, "", 0, 0, ⟨"", "", "", Option.none⟩⟩]⟩
  ∧ get_tiktok_user_videos "u" 50 ⟨0⟩ (fun _ => .ok [.dict []]) =
      .ok ⟨"u", 1, [⟨"", "", ⟨0⟩, (PyDatetime.mk 0).isoformat, ⟨0, 0, 0, 0⟩,
        ⟨"", "", "", Option.none⟩⟩]⟩
  ∧ get_instagram_post_comments "123" 50 Option.none (fun c => .ok c)
      (fun _ _ => .error "chunk down") (fun _ _ => .error "raw down") =
      .ok ⟨"123", 0, [], Option.none, false⟩
  ∧ get_instagram_user_followers "u" 50 (.ok "1")
      (fun _ => .ok [.dict [("pk", .int 7), ("username", .str "f"),
        ("full_name", .str ""), ("profile_pic_url", .null)]]) =
      .ok ⟨"u", 1, [⟨"7", "f", "", Option.none, false, false⟩]⟩ := by
  refine ⟨?_, by decide, by decide, by decide, by decide⟩
  exact (c10_count_equals_length "v1" 50
    (fun _ => .ok [.dict [("text", .str "a")], .dict [("text", .str "b")]])
    "u" 50 ⟨0⟩ (fun _ => .ok [.dict []]) "123" 50 Option.none (fun c => .ok c)
    (fun _ _ => .error "chunk down") (fun _ _ => .error "raw down")
    "u" 50 (.ok "1") (fun _ => .ok [])).1

/-! ## C4: surfacing of upstream failures -/

/-- C4 counterexample: with the user id resolved and both the GQL call and
its V1 fallback failing, `get_instagram_user_posts` returns a successful
empty response instead of an error. -/
theorem c4_counterexample_double_failure_succeeds :
    get_instagram_user_posts "alice" 12 (.ok "1")
      (fun _ => .error "gql unavailable") (fun _ => .error "v1 unavailable") =
      .ok ⟨"alice", 0, []⟩ := rfl

/-- C4 (amended): upstream failures before the two-tier fallback block
(user-id or short-code resolution) surface as HTTP 500 errors, but
failures of both the primary call and its fallback are absorbed: the
handlers return a successful response with an empty item list and count
0. -/
theorem c4_two_tier_fallback_absorbs
    (username : String) (count : Int) (e0 uid e1 e2 : String) (cursor : Option String)
    (mid : String) (gql : Int → Except String (List PyVal))
    (v1 : Int → Except String PyVal)
    (chunk : Int → Option String → Except String (List PyVal × PyVal))
    (raw : Int → Option String → Except String PyVal) :
    (get_instagram_user_posts username count (.error e0) gql v1 =
      .error ⟨500, "Error fetching Instagram posts: " ++ e0⟩)
  ∧ (get_instagram_user_posts username count (.ok uid)
      (fun _ => .error e1) (fun _ => .error e2) = .ok ⟨lstripAt username, 0, []⟩)
  ∧ (pyIsDigit mid = true →
      get_instagram_post_comments mid count cursor (fun _ => .error e0)
        (fun _ _ => .error e1) (fun _ _ => .error e2) =
        .ok ⟨mid, 0, [], Option.none, false⟩)
  ∧ (pyIsDigit mid = false →
      get_instagram_post_comments mid count cursor (fun _ => .error e0) chunk raw =
        .error ⟨500, "Error fetching Instagram comments: " ++ e0⟩) := by
  refine ⟨rfl, rfl, ?_, ?_⟩
  · intro hdig
    unfold get_instagram_post_comments
    simp only [hdig, Bool.not_true, Bool.false_eq_true, if_false]
    rfl
  · intro hdig
    unfold get_instagram_post_comments
    simp only [hdig, Bool.not_false, if_true]
    rfl

/-- Witness for C4 at concrete identifiers. -/
theorem c4_two_tier_fallback_absorbs_witness :
    (get_instagram_user_posts "bob" 12 (.error "user lookup failed")
      (fun _ => .ok []) (fun _ => .ok (.dict [])) =
      .error ⟨500, "Error fetching Instagram posts: user lookup failed"⟩)
  ∧ (get_instagram_user_posts "bob" 12 (.ok "9")
      (fun _ => .error "gql down") (fun _ => .error "v1 down") = .ok ⟨"bob", 0, []⟩)
  ∧ (get_instagram_post_comments "456" 50 Option.none (fun _ => .error "resolver down")
      (fun _ _ => .error "chunk down") (fun _ _ => .error "raw down") =
      .ok ⟨"456", 0, [], Option.none, false⟩)
  ∧ (get_instagram_post_comments "CODE" 50 Option.none (fun _ => .error "resolver down")
      (fun _ _ => .error "chunk down") (fun _ _ => .error "raw down") =
      .error ⟨500, "Error fetching Instagram comments: resolver down"⟩) := by
  have ha := c4_two_tier_fallback_absorbs "bob" 12 "user lookup failed" "9" "gql down"
    "v1 down" Option.none "456" (fun _ => .ok []) (fun _ => .ok (.dict []))
    (fun _ _ => .error "chunk down") (fun _ _ => .error "raw down")
  have hb := c4_two_tier_fallback_absorbs "bob" 12 "resolver down" "9" "gql down"
    "v1 down" Option.none "456" (fun _ => .ok []) (fun _ => .ok (.dict []))
    (fun _ _ => .error "chunk down") (fun _ _ => .error "raw down")
  have hc := c4_two_tier_fallback_absorbs "bob" 50 "resolver down" "9" "chunk down"
    "raw down" Option.none "456" (fun _ => .ok []) (fun _ => .ok (.dict []))
    (fun _ _ => .error "chunk down") (fun _ _ => .error "raw down")
  have hd := c4_two_tier_fallback_absorbs "bob" 50 "resolver down" "9" "chunk down"
    "raw down" Option.none "CODE" (fun _ => .ok []) (fun _ => .ok (.dict []))
    (fun _ _ => .error "chunk down") (fun _ _ => .error "raw down")
  exact ⟨ha.1, hb.2.1, hc.2.2.1 (by decide), hd.2.2.2 (by decide)⟩

/-! ## C1: totality of the normalizers on well-typed payloads

The claim quantifies over arbitrary payloads; the code raises on payloads
whose probed nested structures are not dictionaries or whose leaf values
fail schema validation, so the amended statement quantifies over payloads
whose recognized fields, when present, are well-typed.  The predicates
below state exactly that, per normalizer. -/

/-- Is the value a string? -/
def PyVal.isStrV : PyVal → Bool
  | .str _ => true
  | _ => false

theorem pyStr_isStrV (v : PyVal) : (PyVal.str (pyStr v)).isStrV = true := rfl

end SocialMediaApi
